import Mathlib

/-
Verification of the NCCL interception shim (theo/debug/nccl_hook.cpp).

The shim exports `ncclBroadcast`, lazily resolves the real implementation
from libnccl.so.2 via dlopen/dlsym into the static pointer
`real_ncclBroadcast`, traces each intercepted call, and forwards to the
real function.

Shallow embedding: the process-persistent state is the static pointer
(`Option Nat`, `none` = null).  The dynamic-linking environment (outcome
of dlopen on libnccl.so.2, outcome of dlsym per handle, and the behaviour
of the real function at each resolved pointer) is a record `Env`, fixed
for the process.  Each call produces a list of observable events (system
calls performed, trace lines printed, the forwarded real call with its
arguments) together with the returned status and the new persistent state.
-/

namespace NcclHook

/-- ncclResult_t as in nccl.h. -/
inductive ncclResult_t where
  | ncclSuccess
  | ncclUnhandledCudaError
  | ncclSystemError
  | ncclInternalError
  | ncclInvalidArgument
  | ncclInvalidUsage
  | ncclRemoteError
  | ncclInProgress
deriving DecidableEq, Repr

/-- The seven arguments of ncclBroadcast.  Pointers (buffers, communicator,
stream) are modelled as naturals, count (size_t) as Nat, root (int) as Int,
the datatype tag as Nat. -/
structure BroadcastArgs where
  sendbuff : Nat
  recvbuff : Nat
  count : Nat
  datatype : Nat
  root : Int
  comm : Nat
  stream : Nat
deriving DecidableEq, Repr

/-- Observable events of one call to the hooked function:
dlopen/dlsym invocations, the printf trace lines (load failure, symbol
not found, the shim-level not-found error, the intercepted-call line with
count and root), and the forwarded call to the real function pointer with
the exact argument record passed. -/
inductive Event where
  | dlopenCall
  | dlsymCall
  | traceLoadFailure
  | traceSymbolNotFound
  | traceNotFoundError
  | traceIntercepted (count : Nat) (root : Int)
  | realCall (fn : Nat) (args : BroadcastArgs)
deriving DecidableEq, Repr

/-- Events that are printed output (printf lines). -/
def Event.isTraceOutput : Event → Bool
  | .traceLoadFailure => true
  | .traceSymbolNotFound => true
  | .traceNotFoundError => true
  | .traceIntercepted _ _ => true
  | _ => false

/-- Events that are failure-diagnostic printf lines. -/
def Event.isDiagnostic : Event → Bool
  | .traceLoadFailure => true
  | .traceSymbolNotFound => true
  | .traceNotFoundError => true
  | _ => false

/-- The (process-fixed) dynamic-linking environment: the outcome of
dlopen("libnccl.so.2", RTLD_LAZY) (`none` = null handle), the outcome of
dlsym(handle, "ncclBroadcast") per handle (`none` = null), and the status
returned by the real implementation at each resolved pointer for each
argument record. -/
structure Env where
  dlopen_libnccl : Option Nat
  dlsym_ncclBroadcast : Nat → Option Nat
  realImpl : Nat → BroadcastArgs → ncclResult_t

/-- load_real_nccl_functions: if the static pointer is already non-null
do nothing; otherwise dlopen the library (printing on failure) and, on
success, dlsym the symbol (printing if not found) and store the result in
the static pointer.  Returns the new value of the static pointer together
with the events performed. -/
def load_real_nccl_functions (env : Env) (s : Option Nat) :
    Option Nat × List Event :=
  match s with
  | some p => (some p, [])
  | none =>
    match env.dlopen_libnccl with
    | none => (none, [Event.dlopenCall, Event.traceLoadFailure])
    | some handle =>
      match env.dlsym_ncclBroadcast handle with
      | none =>
        (none, [Event.dlopenCall, Event.dlsymCall, Event.traceSymbolNotFound])
      | some p => (some p, [Event.dlopenCall, Event.dlsymCall])

/-- Outcome of one call to the hooked function: the new value of the
static pointer, the events performed in order, and the returned status. -/
structure CallOutcome where
  state : Option Nat
  events : List Event
  result : ncclResult_t
deriving Repr

/-- The hooked ncclBroadcast: run load_real_nccl_functions; if the static
pointer is still null, print the not-found error and return
ncclSystemError; otherwise print the intercepted-call trace line and
forward the seven arguments unmodified to the real function, returning
its status. -/
def ncclBroadcast (env : Env) (s : Option Nat) (a : BroadcastArgs) :
    CallOutcome :=
  match load_real_nccl_functions env s with
  | (none, evs) =>
    { state := none
      events := evs ++ [Event.traceNotFoundError]
      result := ncclResult_t.ncclSystemError }
  | (some p, evs) =>
    { state := some p
      events := evs ++ [Event.traceIntercepted a.count a.root,
                        Event.realCall p a]
      result := env.realImpl p a }

/-- A sequence of calls to the hooked function in one process, threading
the static pointer: returns the final pointer value, the concatenated
event log and the list of returned statuses. -/
def runCalls (env : Env) (s : Option Nat) :
    List BroadcastArgs → Option Nat × List Event × List ncclResult_t
  | [] => (s, [], [])
  | a :: rest =>
    let o := ncclBroadcast env s a
    let r := runCalls env o.state rest
    (r.1, o.events ++ r.2.1, o.result :: r.2.2)

/-
Interleaving model for concurrent first use.  Each thread executes the
resolution part of the hooked function as a sequence of atomic actions on
the shared static pointer, at sequential-consistency granularity:
  tstart   — read the static pointer (the `if (!real_ncclBroadcast)` check);
  topen    — perform dlopen;
  tlookup  — perform dlsym and store its result into the static pointer;
  tdone    — finished.
The system counts dlopen invocations and stores to the shared pointer.
-/

/-- Program counter of one thread inside load_real_nccl_functions. -/
inductive TPC where
  | tstart
  | topen
  | tlookup
  | tdone
deriving DecidableEq, Repr

/-- Shared-memory system state for the interleaving model: the shared
static pointer, the program counter of each thread, the number of dlopen
invocations performed so far and the number of stores to the shared
pointer so far. -/
structure CSys where
  cache : Option Nat
  pcs : List TPC
  copens : Nat
  cwrites : Nat
deriving Repr

/-- One atomic step of thread i. -/
def stepThread (env : Env) (sys : CSys) (i : Nat) : CSys :=
  match sys.pcs.get? i with
  | none => sys
  | some TPC.tstart =>
    if sys.cache.isSome then { sys with pcs := sys.pcs.set i TPC.tdone }
    else { sys with pcs := sys.pcs.set i TPC.topen }
  | some TPC.topen =>
    match env.dlopen_libnccl with
    | none =>
      { sys with copens := sys.copens + 1, pcs := sys.pcs.set i TPC.tdone }
    | some _ =>
      { sys with copens := sys.copens + 1, pcs := sys.pcs.set i TPC.tlookup }
  | some TPC.tlookup =>
    match env.dlopen_libnccl with
    | none => { sys with pcs := sys.pcs.set i TPC.tdone }
    | some handle =>
      { sys with cache := env.dlsym_ncclBroadcast handle,
                 cwrites := sys.cwrites + 1,
                 pcs := sys.pcs.set i TPC.tdone }
  | some TPC.tdone => sys

/-- Run a schedule (a list of thread indices, each entry letting that
thread take one atomic step). -/
def runSched (env : Env) (sys : CSys) : List Nat → CSys
  | [] => sys
  | i :: rest => runSched env (stepThread env sys i) rest

/-- Initial system: n threads about to make their first call, shared
pointer null, no dlopen performed, no store performed. -/
def initSys (n : Nat) : CSys :=
  { cache := none, pcs := List.replicate n TPC.tstart, copens := 0, cwrites := 0 }

/-
Helper lemmas.
-/

/-- When the pointer is already resolved, load_real_nccl_functions is a
no-op. -/
theorem load_resolved (env : Env) (p : Nat) :
    load_real_nccl_functions env (some p) = (some p, []) := rfl

/-- A call made with the pointer already resolved forwards directly. -/
theorem broadcast_cached (env : Env) (p : Nat) (a : BroadcastArgs) :
    ncclBroadcast env (some p) a =
      { state := some p
        events := [Event.traceIntercepted a.count a.root, Event.realCall p a]
        result := env.realImpl p a } := rfl

/-- Shape of a call on which resolution succeeded. -/
theorem broadcast_resolved (env : Env) (s : Option Nat) (a : BroadcastArgs)
    (p : Nat) (h : (load_real_nccl_functions env s).1 = some p) :
    ncclBroadcast env s a =
      { state := some p
        events := (load_real_nccl_functions env s).2 ++
          [Event.traceIntercepted a.count a.root, Event.realCall p a]
        result := env.realImpl p a } := by
  unfold ncclBroadcast
  rcases hl : load_real_nccl_functions env s with ⟨st, evs⟩
  rw [hl] at h
  simp only at h
  subst h
  simp [hl]

/-- Shape of a call on which resolution failed. -/
theorem broadcast_unresolved (env : Env) (s : Option Nat) (a : BroadcastArgs)
    (h : (load_real_nccl_functions env s).1 = none) :
    ncclBroadcast env s a =
      { state := none
        events := (load_real_nccl_functions env s).2 ++
          [Event.traceNotFoundError]
        result := ncclResult_t.ncclSystemError } := by
  unfold ncclBroadcast
  rcases hl : load_real_nccl_functions env s with ⟨st, evs⟩
  rw [hl] at h
  simp only at h
  subst h
  simp [hl]

/-- Resolution events when dlopen fails. -/
theorem load_none_open_fail (env : Env) (ho : env.dlopen_libnccl = none) :
    load_real_nccl_functions env none =
      (none, [Event.dlopenCall, Event.traceLoadFailure]) := by
  simp [load_real_nccl_functions, ho]

/-- Resolution events when dlopen succeeds but dlsym fails. -/
theorem load_none_sym_fail (env : Env) (handle : Nat)
    (ho : env.dlopen_libnccl = some handle)
    (hs : env.dlsym_ncclBroadcast handle = none) :
    load_real_nccl_functions env none =
      (none, [Event.dlopenCall, Event.dlsymCall, Event.traceSymbolNotFound]) := by
  simp [load_real_nccl_functions, ho, hs]

/-- Resolution events when dlopen and dlsym succeed. -/
theorem load_none_success (env : Env) (handle p : Nat)
    (ho : env.dlopen_libnccl = some handle)
    (hs : env.dlsym_ncclBroadcast handle = some p) :
    load_real_nccl_functions env none =
      (some p, [Event.dlopenCall, Event.dlsymCall]) := by
  simp [load_real_nccl_functions, ho, hs]

/-- The resolver alone never emits a forwarded call or the intercepted
trace line: its events are among dlopen, dlsym and the two failure
diagnostics. -/
theorem load_events_cases (env : Env) (s : Option Nat) :
    ∀ e ∈ (load_real_nccl_functions env s).2,
      e = Event.dlopenCall ∨ e = Event.dlsymCall ∨
      e = Event.traceLoadFailure ∨ e = Event.traceSymbolNotFound := by
  intro e he
  rcases s with _ | p
  · rcases ho : env.dlopen_libnccl with _ | handle
    · rw [load_none_open_fail env ho] at he
      simp at he
      rcases he with h | h <;> simp [h]
    · rcases hs : env.dlsym_ncclBroadcast handle with _ | p
      · rw [load_none_sym_fail env handle ho hs] at he
        simp at he
        rcases he with h | h | h <;> simp [h]
      · rw [load_none_success env handle p ho hs] at he
        simp at he
        rcases he with h | h <;> simp [h]
  · rw [load_resolved env p] at he
    simp at he

/-- On a failed resolution from the null pointer, the resolver performs
exactly one dlopen and prints exactly one diagnostic line. -/
theorem load_failure_events (env : Env)
    (h : (load_real_nccl_functions env none).1 = none) :
    (load_real_nccl_functions env none).2.count Event.dlopenCall = 1 ∧
    ((load_real_nccl_functions env none).2.filter Event.isDiagnostic).length = 1 := by
  rcases ho : env.dlopen_libnccl with _ | handle
  · rw [load_none_open_fail env ho]
    decide
  · rcases hs : env.dlsym_ncclBroadcast handle with _ | p
    · rw [load_none_sym_fail env handle ho hs]
      decide
    · rw [load_none_success env handle p ho hs] at h
      simp at h

/-- Shape of a call from the null pointer when dlopen fails. -/
theorem broadcast_dlopen_none (env : Env) (a : BroadcastArgs)
    (h : env.dlopen_libnccl = none) :
    ncclBroadcast env none a =
      { state := none
        events := [Event.dlopenCall, Event.traceLoadFailure,
                   Event.traceNotFoundError]
        result := ncclResult_t.ncclSystemError } := by
  unfold ncclBroadcast load_real_nccl_functions
  simp [h]

/-- Shape of a first call when dlopen and dlsym succeed. -/
theorem broadcast_first_success (env : Env) (a : BroadcastArgs)
    (handle p : Nat) (ho : env.dlopen_libnccl = some handle)
    (hs : env.dlsym_ncclBroadcast handle = some p) :
    ncclBroadcast env none a =
      { state := some p
        events := [Event.dlopenCall, Event.dlsymCall,
                   Event.traceIntercepted a.count a.root, Event.realCall p a]
        result := env.realImpl p a } := by
  unfold ncclBroadcast load_real_nccl_functions
  simp [ho, hs]

/-- Shape of a first call when dlopen succeeds but dlsym fails. -/
theorem broadcast_sym_none (env : Env) (a : BroadcastArgs) (handle : Nat)
    (ho : env.dlopen_libnccl = some handle)
    (hs : env.dlsym_ncclBroadcast handle = none) :
    ncclBroadcast env none a =
      { state := none
        events := [Event.dlopenCall, Event.dlsymCall,
                   Event.traceSymbolNotFound, Event.traceNotFoundError]
        result := ncclResult_t.ncclSystemError } := by
  unfold ncclBroadcast
  rw [load_none_sym_fail env handle ho hs]
  rfl

/-- Unfolding equation for runCalls on a nonempty call sequence. -/
theorem runCalls_cons (env : Env) (s : Option Nat) (a : BroadcastArgs)
    (l : List BroadcastArgs) :
    runCalls env s (a :: l) =
      ((runCalls env (ncclBroadcast env s a).state l).1,
       (ncclBroadcast env s a).events ++
         (runCalls env (ncclBroadcast env s a).state l).2.1,
       (ncclBroadcast env s a).result ::
         (runCalls env (ncclBroadcast env s a).state l).2.2) := rfl

/-- Along a run that starts with the pointer resolved to p, the pointer
stays p, no dlopen or dlsym ever happens, and every forwarded call uses
the pointer p. -/
theorem runCalls_resolved (env : Env) (p : Nat) (l : List BroadcastArgs) :
    (runCalls env (some p) l).1 = some p ∧
    (runCalls env (some p) l).2.1.count Event.dlopenCall = 0 ∧
    (runCalls env (some p) l).2.1.count Event.dlsymCall = 0 ∧
    (∀ q b, Event.realCall q b ∈ (runCalls env (some p) l).2.1 → q = p) := by
  induction l with
  | nil => simp [runCalls]
  | cons a rest ih =>
    obtain ⟨ih1, ih2, ih3, ih4⟩ := ih
    rw [runCalls_cons, broadcast_cached]
    refine ⟨by simpa using ih1, ?_, ?_, ?_⟩
    · simp [List.count_append, List.count_cons, ih2]
    · simp [List.count_append, List.count_cons, ih3]
    · intro q b hb
      simp at hb
      rcases hb with ⟨h1, h2⟩ | hb
      · exact h1
      · exact ih4 q b hb

/-- Along a run that starts with the pointer null in an environment where
resolution fails, the pointer stays null, every call returns
ncclSystemError, every call performs one dlopen, and every call prints
exactly two diagnostic lines. -/
theorem runCalls_unresolved (env : Env)
    (h : (load_real_nccl_functions env none).1 = none)
    (l : List BroadcastArgs) :
    (runCalls env none l).1 = none ∧
    (runCalls env none l).2.2 =
      List.replicate l.length ncclResult_t.ncclSystemError ∧
    (runCalls env none l).2.1.count Event.dlopenCall = l.length ∧
    ((runCalls env none l).2.1.filter Event.isDiagnostic).length
      = 2 * l.length := by
  induction l with
  | nil => simp [runCalls]
  | cons a rest ih =>
    obtain ⟨ih1, ih2, ih3, ih4⟩ := ih
    obtain ⟨hc, hd⟩ := load_failure_events env h
    rw [runCalls_cons, broadcast_unresolved env none a h]
    refine ⟨by simpa using ih1, ?_, ?_, ?_⟩
    · simp [ih2, List.replicate_succ]
    · simp [List.count_append, hc, ih3]
      omega
    · simp [List.filter_append, hd, ih4, Event.isDiagnostic]
      omega

/-- Values the shared static pointer can hold: null, or a pointer that
dlsym returned for the library handle dlopen returned. -/
def CacheOk (env : Env) (c : Option Nat) : Prop :=
  c = none ∨
  ∃ handle p, env.dlopen_libnccl = some handle ∧
    env.dlsym_ncclBroadcast handle = some p ∧ c = some p

/-- One atomic step of any thread preserves CacheOk. -/
theorem stepThread_cacheOk (env : Env) (sys : CSys) (i : Nat)
    (h : CacheOk env sys.cache) : CacheOk env (stepThread env sys i).cache := by
  unfold stepThread
  rcases hi : sys.pcs.get? i with _ | pc
  · exact h
  · rcases pc with _ | _ | _ | _
    · by_cases hc : sys.cache.isSome <;> simp [hc] <;> exact h
    · rcases ho : env.dlopen_libnccl with _ | handle <;> simp [ho] <;> exact h
    · rcases ho : env.dlopen_libnccl with _ | handle
      · simp [ho]
        exact h
      · simp [ho]
        rcases hs : env.dlsym_ncclBroadcast handle with _ | p
        · exact Or.inl rfl
        · exact Or.inr ⟨handle, p, ho, hs, rfl⟩
    · exact h

/-- Every schedule preserves CacheOk. -/
theorem runSched_cacheOk (env : Env) (sched : List Nat) (sys : CSys)
    (h : CacheOk env sys.cache) : CacheOk env (runSched env sys sched).cache := by
  induction sched generalizing sys with
  | nil => exact h
  | cons i rest ih =>
    exact ih (stepThread env sys i) (stepThread_cacheOk env sys i h)

/-
Concrete environments and argument records for witnesses and
counterexamples.
-/

/-- An environment in which dlopen fails. -/
def envOpenFail : Env :=
  { dlopen_libnccl := none
    dlsym_ncclBroadcast := fun _ => none
    realImpl := fun _ _ => ncclResult_t.ncclSuccess }

/-- An environment in which dlopen yields handle 1, dlsym resolves the
symbol to pointer 7, and the real implementation returns ncclRemoteError
(a non-success status, to observe verbatim pass-through). -/
def envGood : Env :=
  { dlopen_libnccl := some 1
    dlsym_ncclBroadcast := fun _ => some 7
    realImpl := fun _ _ => ncclResult_t.ncclRemoteError }

/-- A concrete argument record with count = 1024 and root = 0. -/
def argsA : BroadcastArgs :=
  { sendbuff := 100, recvbuff := 200, count := 1024, datatype := 2,
    root := 0, comm := 300, stream := 400 }

/-- A second concrete argument record. -/
def argsB : BroadcastArgs :=
  { sendbuff := 500, recvbuff := 600, count := 16, datatype := 3,
    root := 2, comm := 300, stream := 400 }

/-
Claim theorems.
-/

/-- C1: for every call to the hooked ncclBroadcast in which resolution has
succeeded, the shim invokes the real implementation with exactly the
seven-argument record it received, unmodified, and returns exactly the
status the real implementation returned, whatever that status is
(non-success statuses included, never masked or remapped). -/
theorem C1_success_forwards_args_and_status (env : Env) (s : Option Nat)
    (a : BroadcastArgs) (p : Nat)
    (h : (load_real_nccl_functions env s).1 = some p) :
    Event.realCall p a ∈ (ncclBroadcast env s a).events ∧
    (ncclBroadcast env s a).result = env.realImpl p a := by
  rw [broadcast_resolved env s a p h]
  simp

/-- C1 witness at a concrete environment whose real implementation returns
the non-success status ncclRemoteError. -/
theorem C1_witness :
    Event.realCall 7 argsA ∈ (ncclBroadcast envGood none argsA).events ∧
    (ncclBroadcast envGood none argsA).result = envGood.realImpl 7 argsA :=
  C1_success_forwards_args_and_status envGood none argsA 7 (by decide)

/-- C2: for every call to the hooked ncclBroadcast in which resolution has
failed, the shim does not invoke the real implementation, returns
ncclSystemError, and emits a diagnostic trace entry. -/
theorem C2_failure_returns_system_error (env : Env) (s : Option Nat)
    (a : BroadcastArgs) (h : (load_real_nccl_functions env s).1 = none) :
    (ncclBroadcast env s a).result = ncclResult_t.ncclSystemError ∧
    Event.traceNotFoundError ∈ (ncclBroadcast env s a).events ∧
    ∀ p b, Event.realCall p b ∉ (ncclBroadcast env s a).events := by
  rw [broadcast_unresolved env s a h]
  refine ⟨rfl, by simp, ?_⟩
  intro p b hb
  simp at hb
  rcases load_events_cases env s _ hb with hx | hx | hx | hx <;> simp at hx

/-- C2 witness at a concrete environment in which dlopen fails. -/
theorem C2_witness :
    (ncclBroadcast envOpenFail none argsA).result =
      ncclResult_t.ncclSystemError :=
  (C2_failure_returns_system_error envOpenFail none argsA (by decide)).1

/-- C6: invoking the hooked ncclBroadcast with count = 1024 and root = 0,
with resolution succeeding, emits a trace record containing count = 1024
and root = 0 strictly before the forwarded real call in the event order,
and the real call's actual return status is propagated unchanged. -/
theorem C6_trace_before_real_call (env : Env) (s : Option Nat)
    (a : BroadcastArgs) (p : Nat)
    (h : (load_real_nccl_functions env s).1 = some p)
    (hc : a.count = 1024) (hr : a.root = 0) :
    (∃ pre, (ncclBroadcast env s a).events =
      pre ++ [Event.traceIntercepted 1024 0, Event.realCall p a]) ∧
    (ncclBroadcast env s a).result = env.realImpl p a := by
  rw [broadcast_resolved env s a p h]
  exact ⟨⟨(load_real_nccl_functions env s).2, by simp [hc, hr]⟩, rfl⟩

/-- C6 witness at a concrete environment and the argument record with
count = 1024 and root = 0. -/
theorem C6_witness :
    (∃ pre, (ncclBroadcast envGood none argsA).events =
      pre ++ [Event.traceIntercepted 1024 0, Event.realCall 7 argsA]) ∧
    (ncclBroadcast envGood none argsA).result = envGood.realImpl 7 argsA :=
  C6_trace_before_real_call envGood none argsA 7 (by decide) (by decide)
    (by decide)

/-- C7: the cached pointer is immutable once populated (a call made with
the pointer resolved leaves it unchanged), and a call made with the
pointer unpopulated either leaves it unpopulated or populates it with a
pointer actually returned by dlsym on the handle actually returned by
dlopen — a failed resolution never installs a bad cached entry. -/
theorem C7_cache_immutable_and_never_bad (env : Env) (s : Option Nat)
    (a : BroadcastArgs) :
    (∀ p, s = some p → (ncclBroadcast env s a).state = some p) ∧
    (s = none →
      (ncclBroadcast env s a).state = none ∨
      ∃ handle p, env.dlopen_libnccl = some handle ∧
        env.dlsym_ncclBroadcast handle = some p ∧
        (ncclBroadcast env s a).state = some p) := by
  constructor
  · intro p hp
    subst hp
    rw [broadcast_cached]
  · intro hs0
    subst hs0
    rcases ho : env.dlopen_libnccl with _ | handle
    · left
      rw [broadcast_dlopen_none env a ho]
    · rcases hsym : env.dlsym_ncclBroadcast handle with _ | p
      · left
        rw [broadcast_sym_none env a handle ho hsym]
      · right
        refine ⟨handle, p, rfl, hsym, ?_⟩
        rw [broadcast_first_success env a handle p ho hsym]

/-- C7 witness: a call made with the pointer already resolved to 5 leaves
it resolved to 5. -/
theorem C7_witness :
    (ncclBroadcast envGood (some 5) argsA).state = some 5 :=
  (C7_cache_immutable_and_never_bad envGood (some 5) argsA).1 5 rfl

/-- C9: the argument trace record (the intercepted line with count and
root) is emitted if and only if resolution succeeded for that call; on a
call where resolution failed, every printed line is a failure
diagnostic. -/
theorem C9_trace_iff_resolved (env : Env) (s : Option Nat)
    (a : BroadcastArgs) :
    ((∃ c r, Event.traceIntercepted c r ∈ (ncclBroadcast env s a).events) ↔
      (ncclBroadcast env s a).state.isSome = true) ∧
    ((ncclBroadcast env s a).state = none →
      ∀ e ∈ (ncclBroadcast env s a).events,
        e.isTraceOutput = true → e.isDiagnostic = true) := by
  rcases hl : (load_real_nccl_functions env s).1 with _ | p
  · rw [broadcast_unresolved env s a hl]
    refine ⟨?_, ?_⟩
    · simp
      intro c r hmem
      rcases load_events_cases env s _ hmem with hx | hx | hx | hx <;>
        simp at hx
    · intro _ e he hout
      simp at he
      rcases he with he | he
      · rcases load_events_cases env s e he with hx | hx | hx | hx <;>
          subst hx <;> simp_all [Event.isTraceOutput, Event.isDiagnostic]
      · simp [he, Event.isDiagnostic]
  · rw [broadcast_resolved env s a p hl]
    refine ⟨?_, ?_⟩
    · simp
      exact ⟨a.count, a.root, by simp⟩
    · intro hnone
      simp at hnone

/-- C9 witness: at a concrete environment where resolution succeeds, the
intercepted trace record is emitted. -/
theorem C9_witness :
    ∃ c r, Event.traceIntercepted c r ∈
      (ncclBroadcast envGood none argsA).events :=
  (C9_trace_iff_resolved envGood none argsA).1.mpr (by decide)

/-- C10: a call on which resolution fails (dlopen returns null, or dlsym
returns null) leaves the persistent state unchanged — the cached pointer
is still null afterwards — so a subsequent call behaves exactly like a
fresh first call. -/
theorem C10_failed_resolution_preserves_state (env : Env)
    (a b : BroadcastArgs)
    (h : env.dlopen_libnccl = none ∨
      ∃ handle, env.dlopen_libnccl = some handle ∧
        env.dlsym_ncclBroadcast handle = none) :
    (ncclBroadcast env none a).state = none ∧
    ncclBroadcast env (ncclBroadcast env none a).state b =
      ncclBroadcast env none b := by
  have hnone : (ncclBroadcast env none a).state = none := by
    rcases h with ho | ⟨handle, ho, hsym⟩
    · rw [broadcast_dlopen_none env a ho]
    · rw [broadcast_sym_none env a handle ho hsym]
  exact ⟨hnone, by rw [hnone]⟩

/-- C10 witness at a concrete environment in which dlopen fails. -/
theorem C10_witness :
    (ncclBroadcast envOpenFail none argsA).state = none :=
  (C10_failed_resolution_preserves_state envOpenFail argsA argsB
    (Or.inl (by decide))).1

/-- C3 counterexample: in an environment where dlopen fails, a sequence of
two calls to the hooked function performs two dlopens, refuting "at most
one underlying library-open per process". -/
theorem C3_counterexample :
    (runCalls envOpenFail none [argsA, argsB]).2.1.count Event.dlopenCall = 2 ∧
    ¬ ((runCalls envOpenFail none [argsA, argsB]).2.1.count
        Event.dlopenCall ≤ 1) := by
  decide

/-- C3 amended: when dlopen and dlsym succeed, any sequence of calls
performs at most one dlopen and at most one dlsym, every forwarded call
uses the single resolved pointer, and the cached pointer ends at that
resolved value; after a failed resolution, the open is re-attempted on
later calls. -/
theorem C3_resolve_once_on_success (env : Env) (handle p : Nat)
    (ho : env.dlopen_libnccl = some handle)
    (hs : env.dlsym_ncclBroadcast handle = some p)
    (l : List BroadcastArgs) :
    (runCalls env none l).2.1.count Event.dlopenCall ≤ 1 ∧
    (runCalls env none l).2.1.count Event.dlsymCall ≤ 1 ∧
    (∀ q b, Event.realCall q b ∈ (runCalls env none l).2.1 → q = p) ∧
    (l = [] ∨ (runCalls env none l).1 = some p) := by
  rcases l with _ | ⟨a, rest⟩
  · simp [runCalls]
  · obtain ⟨r1, r2, r3, r4⟩ := runCalls_resolved env p rest
    rw [runCalls_cons, broadcast_first_success env a handle p ho hs]
    refine ⟨?_, ?_, ?_, Or.inr (by simpa using r1)⟩
    · simp [List.count_append, List.count_cons, r2]
    · simp [List.count_append, List.count_cons, r3]
    · intro q b hb
      simp at hb
      rcases hb with ⟨h1, _⟩ | hb
      · exact h1
      · exact r4 q b hb

/-- C3 witness for the amended statement at a concrete environment. -/
theorem C3_witness :
    (runCalls envGood none [argsA, argsB]).2.1.count Event.dlopenCall ≤ 1 :=
  (C3_resolve_once_on_success envGood 1 7 (by decide) (by decide)
    [argsA, argsB]).1

/-- C4 counterexample: in an environment where dlopen fails, the first
call fails to resolve, and the second call performs dlopen again —
refuting "without re-attempting the library open on each call". -/
theorem C4_counterexample :
    (ncclBroadcast envOpenFail none argsA).state = none ∧
    (ncclBroadcast envOpenFail none argsA).result =
      ncclResult_t.ncclSystemError ∧
    Event.dlopenCall ∈
      (ncclBroadcast envOpenFail
        (ncclBroadcast envOpenFail none argsA).state argsA).events := by
  decide

/-- C4 amended: once resolution has failed, every subsequent call still
reports the failure (the pointer stays null and every call returns
ncclSystemError), but the library open is re-attempted on every call (one
dlopen per call). -/
theorem C4_failure_repeats_open (env : Env)
    (h : (load_real_nccl_functions env none).1 = none)
    (l : List BroadcastArgs) :
    (runCalls env none l).1 = none ∧
    (runCalls env none l).2.2 =
      List.replicate l.length ncclResult_t.ncclSystemError ∧
    (runCalls env none l).2.1.count Event.dlopenCall = l.length := by
  obtain ⟨h1, h2, h3, _⟩ := runCalls_unresolved env h l
  exact ⟨h1, h2, h3⟩

/-- C4 witness for the amended statement: two failing calls perform two
dlopens. -/
theorem C4_witness :
    (runCalls envOpenFail none [argsA, argsB]).2.1.count
      Event.dlopenCall = 2 := by
  have := (C4_failure_repeats_open envOpenFail (by decide) [argsA, argsB]).2.2
  simpa using this

/-- C5 counterexample: when dlopen fails, one call to the hooked function
emits two diagnostic records (the load-failure line and the shim's
not-found line), not exactly one. -/
theorem C5_counterexample :
    ((ncclBroadcast envOpenFail none argsA).events.filter
      Event.isDiagnostic).length = 2 ∧
    ((ncclBroadcast envOpenFail none argsA).events.filter
      Event.isDiagnostic).length ≠ 1 := by
  decide

/-- C5 amended: if the real library cannot be opened, every call to the
hooked function returns ncclSystemError and emits exactly two diagnostic
records per call, and never crashes (the shim is a total function). -/
theorem C5_two_diagnostics_per_call (env : Env)
    (h : env.dlopen_libnccl = none) (l : List BroadcastArgs) :
    (runCalls env none l).2.2 =
      List.replicate l.length ncclResult_t.ncclSystemError ∧
    ((runCalls env none l).2.1.filter Event.isDiagnostic).length
      = 2 * l.length := by
  have hl : (load_real_nccl_functions env none).1 = none := by
    rw [load_none_open_fail env h]
  obtain ⟨_, h2, _, h4⟩ := runCalls_unresolved env hl l
  exact ⟨h2, h4⟩

/-- C5 witness for the amended statement: one failing call emits two
diagnostic records. -/
theorem C5_witness :
    ((runCalls envOpenFail none [argsA]).2.1.filter
      Event.isDiagnostic).length = 2 := by
  have := (C5_two_diagnostics_per_call envOpenFail (by decide) [argsA]).2
  simpa using this

/-- C8 counterexample: in the sequentially consistent interleaving model,
two threads racing the first call can both pass the null check before
either resolves; the schedule 0,1,0,1,0,1 makes both threads perform
dlopen and both write the shared cache entry — refuting "exactly one
resolution attempt mutates the shared cache entry". -/
theorem C8_counterexample :
    (runSched envGood (initSys 2) [0, 1, 0, 1, 0, 1]).cwrites = 2 ∧
    ¬ ((runSched envGood (initSys 2) [0, 1, 0, 1, 0, 1]).cwrites ≤ 1) ∧
    (runSched envGood (initSys 2) [0, 1, 0, 1, 0, 1]).copens = 2 := by
  decide

/-- C8 amended: under concurrent first use the unguarded initialization
admits more than one resolution attempt and more than one write to the
shared cache entry; what holds in the sequentially consistent interleaving
model is that every value the cache ever holds is either null or a pointer
actually returned by dlsym on the handle returned by dlopen, so racing
callers observe either null or the resolved pointer. -/
theorem C8_cache_values_safe (env : Env) (n : Nat) (sched : List Nat) :
    (runSched env (initSys n) sched).cache = none ∨
    ∃ handle p, env.dlopen_libnccl = some handle ∧
      env.dlsym_ncclBroadcast handle = some p ∧
      (runSched env (initSys n) sched).cache = some p :=
  runSched_cacheOk env sched (initSys n) (Or.inl rfl)

end NcclHook
